import Mathlib

/-!
Verification of the EquityAI / EquityNest repository (VT_Hacks_25).

The executable code is a React/TypeScript marketing app plus vanilla-JS
reimplementations of the same pages and a chatbot widget.  This file gives a
shallow embedding of the executable functions the claims are about:

* `calculateMargin`, `filteredProperties`, `handleSaveProperty` from the
  React Marketplace page (`src/unnamed/part_003`);
* the DealAnalyzer derived metrics from the same file;
* `mockProperties` from `src/unnamed/part_005`;
* `showPage` and the delegated click handler from `src/frontend/script.js`
  and `src/vanilla/script.js`, and `showPage` from
  `src/vanilla/script_new.js`;
* `computeSavings` from `src/vanilla/script_backup.js` and
  `src/vanilla/script_new.js`;
* the `ChatbotManager` widget from `src/frontend/script.js`;
* `handleSubmit` of the AgentConnect lead form
  (`src/apps/equityai/src/pages/AgentConnect.tsx`).

JavaScript numbers are embedded as rationals (`Rat`); `Math.round` is
round-half-up; the falsy-default idiom `x || d` is embedded by `jsOr*`
helpers that fall back on `none`, `0` and the empty string.
-/

namespace EquityAI

/-- `Math.round` in JavaScript: round half towards positive infinity. -/
def jsRound (x : ℚ) : ℤ := ⌊x + 1/2⌋

/-- The JS idiom `x || d` for an optional number: `undefined` and `0` are
falsy and select the default. -/
def jsOrQ (o : Option ℚ) (d : ℚ) : ℚ :=
  match o with
  | none => d
  | some x => if x = 0 then d else x

/-- The JS idiom `x || d` for an optional natural number. -/
def jsOrN (o : Option ℕ) (d : ℕ) : ℕ :=
  match o with
  | none => d
  | some x => if x = 0 then d else x

/-- JavaScript `String.prototype.trim`: drop leading and trailing
whitespace. -/
def jsTrim (s : String) : String :=
  String.mk (((s.data.dropWhile Char.isWhitespace).reverse.dropWhile
    Char.isWhitespace).reverse)

/-- The JS idiom `s || d` for an optional string: `undefined` and `""` are
falsy and select the default. -/
def jsOrStr (o : Option String) (d : String) : String :=
  match o with
  | none => d
  | some s => if s = "" then d else s

/-! ## Data model: `src/apps/equityai/src/types/property.ts` -/

/-- The `Property` interface of `types/property.ts`.  Monetary amounts and
coordinates are rationals; `beds`, `baths`, `sqft`, `dom`, `equityScore`
are naturals as in all the data of the repository. -/
structure Property where
  id : String
  address : String
  city : String
  state : String
  zip : String
  beds : ℕ
  baths : ℕ
  sqft : ℕ
  price : ℚ
  arv : ℚ
  rehabEstimate : ℚ
  dom : ℕ
  equityScore : ℕ
  lat : ℚ
  lng : ℚ
  needsWork : Bool
  propertyType : String
deriving Repr, DecidableEq

/-- The `SearchFilters` interface of `types/property.ts`; `?` fields are
`Option`. -/
structure SearchFilters where
  city : Option String := none
  zip : Option String := none
  state : String
  priceMin : Option ℚ := none
  priceMax : Option ℚ := none
  beds : Option ℕ := none
  propertyType : Option String := none
  needsWork : Option Bool := none
  marginMin : Option ℚ := none
  daysOnMarketMax : Option ℕ := none
deriving Repr, DecidableEq

/-! ## Mock data: `src/unnamed/part_005` (`mockProperties`) -/

/-- `mockProperties` from `src/unnamed/part_005`: the four static Texas
properties rendered by the React Marketplace. -/
def mockProperties : List Property :=
  [ { id := "1", address := "123 Main St", city := "Austin", state := "TX",
      zip := "73301", beds := 3, baths := 2, sqft := 1850, price := 285000,
      arv := 365000, rehabEstimate := 45000, dom := 14, equityScore := 87,
      lat := 302672/10000, lng := -977431/10000, needsWork := true,
      propertyType := "single-family" },
    { id := "2", address := "456 Oak Ave", city := "Dallas", state := "TX",
      zip := "75201", beds := 4, baths := 3, sqft := 2340, price := 425000,
      arv := 520000, rehabEstimate := 28000, dom := 7, equityScore := 92,
      lat := 327767/10000, lng := -967970/10000, needsWork := false,
      propertyType := "single-family" },
    { id := "3", address := "789 Pine Rd", city := "Houston", state := "TX",
      zip := "77001", beds := 2, baths := 1, sqft := 1200, price := 195000,
      arv := 285000, rehabEstimate := 52000, dom := 28, equityScore := 74,
      lat := 297604/10000, lng := -953698/10000, needsWork := true,
      propertyType := "condo" },
    { id := "4", address := "321 Elm St", city := "San Antonio", state := "TX",
      zip := "78201", beds := 3, baths := 2, sqft := 1650, price := 235000,
      arv := 315000, rehabEstimate := 35000, dom := 21, equityScore := 81,
      lat := 294241/10000, lng := -984936/10000, needsWork := true,
      propertyType := "townhouse" } ]

/-! ## Marketplace page: `src/unnamed/part_003` -/

/-- `calculateMargin` from the Marketplace component:
`totalCost = price + rehabEstimate + price * 0.08` (8% closing costs) and
the margin is `Math.round(((arv - totalCost) / totalCost) * 100)`. -/
def calculateMargin (p : Property) : ℤ :=
  let totalCost : ℚ := p.price + p.rehabEstimate + p.price * (8/100)
  jsRound ((p.arv - totalCost) / totalCost * 100)

/-- The predicate of the `properties.filter` call building
`filteredProperties` in the Marketplace component, with the JS falsy
defaults embedded by the `jsOr*` helpers. -/
def marketplaceFilterPred (filters : SearchFilters) (p : Property) : Prop :=
  let margin := calculateMargin p
  p.state = filters.state ∧
  jsOrQ filters.priceMin 0 ≤ p.price ∧
  p.price ≤ jsOrQ filters.priceMax 1000000 ∧
  (∀ b, filters.beds = some b → b ≠ 0 → b ≤ p.beds) ∧
  (∀ t, filters.propertyType = some t → t ≠ "" → p.propertyType = t) ∧
  (∀ w, filters.needsWork = some w → p.needsWork = w) ∧
  (jsOrQ filters.marginMin 0 : ℚ) ≤ (margin : ℚ) ∧
  p.dom ≤ jsOrN filters.daysOnMarketMax 90

instance (filters : SearchFilters) (p : Property) :
    Decidable (marketplaceFilterPred filters p) := by
  unfold marketplaceFilterPred
  exact instDecidableAnd

/-- `filteredProperties` from the Marketplace component: `properties`
filtered by the conjunction of the state, price-range, beds, property-type,
needs-work, margin and days-on-market checks. -/
def filteredProperties (properties : List Property)
    (filters : SearchFilters) : List Property :=
  properties.filter (fun p => decide (marketplaceFilterPred filters p))

/-- The updated saved list computed by `handleSaveProperty`: remove the id
when present (`savedProperties.filter(id => id !== propertyId)`), append it
when absent (`[...savedProperties, propertyId]`). -/
def toggleSaved (savedProperties : List String) (propertyId : String) :
    List String :=
  if savedProperties.contains propertyId then
    savedProperties.filter (fun i => i ≠ propertyId)
  else
    savedProperties ++ [propertyId]

/-- A toast raised through `useToast`. -/
structure Toast where
  title : String
  description : String
deriving Repr, DecidableEq

/-- Escape one character the way `JSON.stringify` escapes string contents
(backslash and double quote; the saved ids contain no control characters). -/
def jsonEscapeChar (c : Char) : String :=
  if c = '\\' then "\\\\" else if c = '"' then "\\\"" else c.toString

/-- `JSON.stringify` of a string. -/
def jsonStringifyStr (s : String) : String :=
  "\"" ++ String.join (s.toList.map jsonEscapeChar) ++ "\""

/-- `JSON.stringify` of an array of strings. -/
def jsonStringifyList (l : List String) : String :=
  "[" ++ String.intercalate "," (l.map jsonStringifyStr) ++ "]"

/-- The part of the browser state `handleSaveProperty` touches: the
`savedProperties` React state and the value stored under the localStorage
key `savedProperties` (`none` when the key is absent). -/
structure SavedState where
  savedProperties : List String
  storage : Option String
deriving Repr, DecidableEq

/-- `handleSaveProperty` from the Marketplace component: compute the toggled
list, store it in the React state, write its `JSON.stringify` to
localStorage, and raise a removed/saved toast (chosen by the membership test
on the old list). -/
def handleSaveProperty (st : SavedState) (propertyId : String) :
    SavedState × Toast :=
  let newSaved := toggleSaved st.savedProperties propertyId
  ({ savedProperties := newSaved, storage := some (jsonStringifyList newSaved) },
   if st.savedProperties.contains propertyId then
     { title := "Property removed",
       description := "Removed from your saved properties" }
   else
     { title := "Property saved",
       description := "Added to your saved properties" })

/-! ## DealAnalyzer page: second component of `src/unnamed/part_003` -/

/-- The `analysis` state of the DealAnalyzer component. -/
structure DealAnalysis where
  purchasePrice : ℚ
  closingCosts : ℚ
  rehabItems : List (String × ℚ)
  totalRehab : ℚ
  arv : ℚ
  confidence : ℕ
deriving Repr, DecidableEq

/-- `totalInvestment = purchasePrice + closingCosts + totalRehab`. -/
def totalInvestment (a : DealAnalysis) : ℚ :=
  a.purchasePrice + a.closingCosts + a.totalRehab

/-- `grossProfit = arv - totalInvestment`. -/
def grossProfit (a : DealAnalysis) : ℚ :=
  a.arv - totalInvestment a

/-- `netProfit = grossProfit - arv * 0.06` (6% selling costs). -/
def netProfit (a : DealAnalysis) : ℚ :=
  grossProfit a - a.arv * (6/100)

/-- `marginPercent = Math.round((netProfit / totalInvestment) * 100)`. -/
def marginPercent (a : DealAnalysis) : ℤ :=
  jsRound (netProfit a / totalInvestment a * 100)

/-! ## Listing data of the vanilla scripts
(`src/vanilla/script_new.js`, `src/vanilla/script_backup.js`) -/

/-- The property records of the `PROPERTIES` arrays in the vanilla scripts. -/
structure ListingProperty where
  id : String
  address1 : String
  city : String
  state : String
  zip : String
  beds : ℕ
  baths : ℕ
  sqft : ℕ
  lotSqft : ℕ
  yearBuilt : ℕ
  hasGarage : Bool
  type : String
  listPrice : ℚ
  estValue : ℚ
  photo : String
  photos : List String
deriving Repr, DecidableEq

/-- `computeSavings` from `src/vanilla/script_backup.js` (the inline
`savings` of `renderProperties` in `src/vanilla/script_new.js` is the same
expression): `estValue - listPrice`. -/
def computeSavings (p : ListingProperty) : ℚ :=
  p.estValue - p.listPrice

/-! ## The planned valuation engine (never implemented)

`src/agents/analysis_engine_TODO.md` plans, in prose and example formulas
only, a sales-comparison valuation with weighted reconciliation
(`weight ∝ 1/(k + |total_adjustments|)`, final value a weighted average of
adjusted comparable prices) and a cap-rate income valuation
(`Value = NOI/Cap_Rate`).  The following definitions transcribe those
planning formulas so that the theorems can state that no implemented
function computes anything of this shape. -/

/-- A comparable sale as planned in `analysis_engine_TODO.md`: a sale price
together with the total dollar adjustments applied to it. -/
structure ComparableSale where
  salePrice : ℚ
  totalAdjustments : ℚ
deriving Repr, DecidableEq

/-- The planned comparable weight `weight ∝ 1/(k + |total_adjustments|)`
(`analysis_engine_TODO.md`, Phase 1.5). -/
def compWeight (k : ℚ) (c : ComparableSale) : ℚ :=
  1 / (k + |c.totalAdjustments|)

/-- The planned weighted reconciliation of adjusted comparable prices
(`analysis_engine_TODO.md`, Phase 1.5). -/
def reconciledValue (k : ℚ) (comps : List ComparableSale) : ℚ :=
  (comps.map (fun c => compWeight k c * (c.salePrice + c.totalAdjustments))).sum /
    (comps.map (compWeight k)).sum

/-- The planned cap-rate valuation `Value = NOI/Cap_Rate`
(`analysis_engine_TODO.md`, Phase 2.2). -/
def capRateValue (noi capRate : ℚ) : ℚ :=
  noi / capRate

/-! ## Marketplace component state machine (for the static-data invariant)

The Marketplace component of `src/unnamed/part_003` holds four pieces of
`useState` state.  Its handlers are: the mount effect loading
`savedProperties` from localStorage, `setFilters` updates from the filter
sidebar, `handleSaveProperty`, `setSortBy`, and the reset-filters button.
`setProperties` is never called after initialization. -/

structure MarketState where
  filters : SearchFilters
  properties : List Property
  savedProperties : List String
  sortBy : String
  storage : Option String
deriving Repr, DecidableEq

/-- The initial Marketplace state: the `useState` initializers of the
component (`properties` starts as `mockProperties`), with whatever the
browser holds under the localStorage key. -/
def marketInit (storage0 : Option String) : MarketState :=
  { filters := { state := "TX", priceMin := some 0, priceMax := some 1000000,
                 marginMin := some 10, daysOnMarketMax := some 90 },
    properties := mockProperties,
    savedProperties := [],
    sortBy := "equity-score",
    storage := storage0 }

/-- The user-visible operations of the Marketplace page.  `loadSaved`
carries the list parsed by `JSON.parse` from the stored string in the mount
effect. -/
inductive MarketEvent where
  | loadSaved (parsed : List String)
  | setFilters (f : SearchFilters)
  | save (propertyId : String)
  | setSortBy (s : String)
  | resetFilters
deriving Repr, DecidableEq

/-- One step of the Marketplace page: the handler bodies from
`src/unnamed/part_003`. -/
def marketStep (st : MarketState) (e : MarketEvent) : MarketState :=
  match e with
  | .loadSaved parsed =>
      match st.storage with
      | some _ => { st with savedProperties := parsed }
      | none => st
  | .setFilters f => { st with filters := f }
  | .save propertyId =>
      let r := handleSaveProperty ⟨st.savedProperties, st.storage⟩ propertyId
      { st with savedProperties := r.1.savedProperties, storage := r.1.storage }
  | .setSortBy s => { st with sortBy := s }
  | .resetFilters =>
      { st with filters := { state := "TX", priceMin := some 0,
                             priceMax := some 1000000, marginMin := some 10,
                             daysOnMarketMax := some 90 } }

/-! ## AgentConnect lead form: `src/apps/equityai/src/pages/AgentConnect.tsx` -/

/-- The `formData` state of the AgentConnect page. -/
structure LeadFormData where
  fullName : String
  email : String
  phone : String
  city : String
  timeline : String
deriving Repr, DecidableEq

/-- An effect a form handler can perform. -/
inductive FormEffect where
  | preventDefault
  | showToast (title description : String)
  | httpRequest (url body : String)
deriving Repr, DecidableEq

/-- `handleSubmit` of the AgentConnect lead form: prevent the default
navigation and raise one toast; the form state is not touched and no
request is issued. -/
def leadHandleSubmit (fd : LeadFormData) : List FormEffect × LeadFormData :=
  ([FormEffect.preventDefault,
    FormEffect.showToast "Request submitted"
      "We\x27ll connect you with a qualified agent within 24 hours."], fd)

/-! ## DOM model for the routing code

An element carries its id, its class list, its `data-page` attribute when
present, and its display state (`style.display`, used by
`src/vanilla/script_new.js`).  A document is its list of elements in
document order; `getElementById` and `querySelector` return the first
match. -/

structure Elem where
  id : String
  classes : List String
  dataPage : Option String := none
  displayed : Bool := true
deriving Repr, DecidableEq

/-- `classList.contains`. -/
def hasClass (e : Elem) (c : String) : Bool :=
  e.classes.contains c

/-- `classList.add`: a no-op when the class is already present. -/
def addClass (c : String) (e : Elem) : Elem :=
  if e.classes.contains c then e else { e with classes := e.classes ++ [c] }

/-- `classList.remove`. -/
def removeClass (c : String) (e : Elem) : Elem :=
  { e with classes := e.classes.filter (fun c2 => c2 ≠ c) }

/-- `document.getElementById(tid)` followed by a mutation `f` of the found
element: rewrite the first element whose id is `tid`, keep the document
unchanged when there is none. -/
def applyToFirstById (tid : String) (f : Elem → Elem) :
    List Elem → List Elem
  | [] => []
  | e :: rest =>
      if e.id = tid then f e :: rest
      else e :: applyToFirstById tid f rest

/-- `document.querySelector('[data-page=v]')` followed by a mutation `f` of
the found element. -/
def applyToFirstByDataPage (v : String) (f : Elem → Elem) :
    List Elem → List Elem
  | [] => []
  | e :: rest =>
      if e.dataPage = some v then f e :: rest
      else e :: applyToFirstByDataPage v f rest

namespace Frontend

/-- The `pages` routing table of `src/frontend/script.js`. -/
def pages : List (String × String) :=
  [("home", "home-page"), ("marketplace", "marketplace-page"),
   ("analyzer", "analyzer-page"), ("agent-connect", "agent-connect-page"),
   ("pricing", "pricing-page"), ("signin", "signin-page"),
   ("signup", "signup-page")]

/-- The element id `showPage` targets:
`pages[pageId] || pages['home']`. -/
def targetId (pageId : String) : String :=
  jsOrStr (pages.lookup pageId) (jsOrStr (pages.lookup "home") "")

/-- `showPage` from `src/frontend/script.js`: remove `active` from every
`.page` element, add `active` to the element whose id the table maps the
page identifier to (home fallback), remove `active` from every `.nav-link`,
add `active` to the first `[data-page=pageId]` element when it is a nav
link, and set `currentPage`. -/
def showPage (pageId : String) (doc : List Elem) : List Elem × String :=
  let doc1 := doc.map (fun e =>
    if hasClass e "page" then removeClass "active" e else e)
  let doc2 := applyToFirstById (targetId pageId) (addClass "active") doc1
  let doc3 := doc2.map (fun e =>
    if hasClass e "nav-link" then removeClass "active" e else e)
  let doc4 := applyToFirstByDataPage pageId
    (fun e => if hasClass e "nav-link" then addClass "active" e else e) doc3
  (doc4, pageId)

/-- The delegated click handler of `src/frontend/script.js`:
`e.target.closest('[data-page]')` is modelled by the `data-page` value of
the closest carrying ancestor (`none` when there is none).  Returns whether
`preventDefault` ran, the new document and the new `currentPage`. -/
def handleClick (doc : List Elem) (currentPage : String)
    (closestDataPage : Option String) : Bool × List Elem × String :=
  match closestDataPage with
  | none => (false, doc, currentPage)
  | some v => (true, showPage v doc)

end Frontend

namespace Vanilla

/-- The `pages` routing table of `src/vanilla/script.js`. -/
def pages : List (String × String) :=
  [("home", "home-page"), ("marketplace", "marketplace-page"),
   ("analyzer", "analyzer-page"), ("agent-connect", "agent-connect-page"),
   ("pricing", "pricing-page"), ("signin", "signin-page"),
   ("signup", "signup-page")]

/-- The element id `showPage` of `src/vanilla/script.js` targets. -/
def targetId (pageId : String) : String :=
  jsOrStr (pages.lookup pageId) (jsOrStr (pages.lookup "home") "")

/-- `showPage` from `src/vanilla/script.js` (textually identical to the
copy in `src/frontend/script.js`). -/
def showPage (pageId : String) (doc : List Elem) : List Elem × String :=
  let doc1 := doc.map (fun e =>
    if hasClass e "page" then removeClass "active" e else e)
  let doc2 := applyToFirstById (targetId pageId) (addClass "active") doc1
  let doc3 := doc2.map (fun e =>
    if hasClass e "nav-link" then removeClass "active" e else e)
  let doc4 := applyToFirstByDataPage pageId
    (fun e => if hasClass e "nav-link" then addClass "active" e else e) doc3
  (doc4, pageId)

/-- The delegated click handler of `src/vanilla/script.js`. -/
def handleClick (doc : List Elem) (currentPage : String)
    (closestDataPage : Option String) : Bool × List Elem × String :=
  match closestDataPage with
  | none => (false, doc, currentPage)
  | some v => (true, showPage v doc)

end Vanilla

namespace ScriptNew

/-- The `pages` routing table of `src/vanilla/script_new.js`. -/
def pages : List (String × String) :=
  [("home", "home-page"), ("marketplace", "marketplace-page"),
   ("property-details", "property-details-page")]

/-- The element id `showPage` of `src/vanilla/script_new.js` targets. -/
def targetId (pageId : String) : String :=
  jsOrStr (pages.lookup pageId) (jsOrStr (pages.lookup "home") "")

/-- `showPage` from `src/vanilla/script_new.js`: hide every `.page` element
(`style.display = 'none'`), display the element the table maps the page
identifier to (home fallback) and update `currentPage` when that element
exists.  (The marketplace re-render only rewrites the grid contents.) -/
def showPage (pageId : String) (doc : List Elem) (currentPage : String) :
    List Elem × String :=
  let doc1 := doc.map (fun e =>
    if hasClass e "page" then { e with displayed := false } else e)
  if doc1.any (fun e => e.id = targetId pageId) then
    (applyToFirstById (targetId pageId)
      (fun e => { e with displayed := true }) doc1, pageId)
  else
    (doc1, currentPage)

end ScriptNew

/-! ## Chatbot widget: `ChatbotManager` in `src/frontend/script.js`

HTTP is modelled by passing the outcome of the single `fetch` a handler can
issue; each handler returns the new widget state together with the list of
requests it issued. -/

/-- Who a transcript entry is from (`addMessage(role, content)`). -/
inductive Role where
  | user
  | assistant
deriving Repr, DecidableEq

/-- An HTTP request issued through `fetch` (always a JSON POST here). -/
structure HttpRequest where
  url : String
  body : String
deriving Repr, DecidableEq

/-- Outcome of a `fetch`: network failure (the promise rejects), a response
with `ok` false (the handler then throws), or an ok response whose parsed
JSON is `data`. -/
inductive FetchOutcome (α : Type) where
  | failure
  | nonOk
  | ok (data : α)
deriving Repr, DecidableEq

/-- Parsed body of a successful `POST /chat/start` response. -/
structure StartData where
  session_id : String
  message : String
deriving Repr, DecidableEq

/-- Parsed body of a successful `POST /chat/message` response. -/
structure MessageData where
  message : String
  completed : Bool
  preferences_collected : Bool
deriving Repr, DecidableEq

/-- The `ChatbotManager` fields the handlers read and write. -/
structure ChatState where
  sessionId : Option String := none
  isOpen : Bool := false
  isTyping : Bool := false
  typingVisible : Bool := false
  sendDisabled : Bool := false
  inputValue : String := ""
  transcript : List (Role × String) := []
deriving Repr, DecidableEq

/-- `this.apiBaseUrl` of the `ChatbotManager` constructor. -/
def apiBaseUrl : String := "http://localhost:8001"

/-- The JSON body `JSON.stringify({session_id: ..., message: ...})` of
`sendMessage` (`session_id` is `null` when no session was started). -/
def messageBody (sessionId : Option String) (message : String) : String :=
  "\x7b\"session_id\":" ++
    (match sessionId with
     | none => "null"
     | some s => jsonStringifyStr s) ++
  ",\"message\":" ++ jsonStringifyStr message ++ "\x7d"

/-- The apology `startSession` appends on error. -/
def startErrorMessage : String :=
  "Sorry, I encountered an error starting our conversation. Please try refreshing the page."

/-- The apology `sendMessage` appends on error. -/
def sendErrorMessage : String :=
  "Sorry, I encountered an error processing your message. Please try again."

/-- The acknowledgement `sendMessage` appends when the response has
`completed` and `preferences_collected` set. -/
def handoffMessage : String :=
  "Perfect! I have all the information I need. Our property finding team will now search for investments that match your criteria. You should hear from us soon with some exciting opportunities!"

/-- The request `startSession` issues: `POST {apiBaseUrl}/chat/start` with
body `JSON.stringify({})`. -/
def startRequest : HttpRequest :=
  { url := apiBaseUrl ++ "/chat/start", body := "\x7b\x7d" }

/-- `ChatbotManager.startSession`: POST to `/chat/start`; on an ok response
store `data.session_id` and append `data.message`; on failure or a non-ok
status append the apology (the session id is left as it was). -/
def startSession (st : ChatState) (resp : FetchOutcome StartData) :
    ChatState × List HttpRequest :=
  match resp with
  | .ok d =>
      ({ st with sessionId := some d.session_id,
                 transcript := st.transcript ++ [(Role.assistant, d.message)] },
       [startRequest])
  | _ =>
      ({ st with
         transcript := st.transcript ++ [(Role.assistant, startErrorMessage)] },
       [startRequest])

/-- The JS truthiness test `!this.sessionId` on the optional session id:
`null` and the empty string are falsy. -/
def jsFalsyStr (o : Option String) : Bool :=
  match o with
  | none => true
  | some s => s = ""

/-- `ChatbotManager.openChat`: open the window and start a session when the
stored session id is falsy (`if (!this.sessionId)`): absent or the empty
string. -/
def openChat (st : ChatState) (resp : FetchOutcome StartData) :
    ChatState × List HttpRequest :=
  let st1 := { st with isOpen := true }
  if jsFalsyStr st1.sessionId then startSession st1 resp else (st1, [])

/-- `ChatbotManager.closeChat`. -/
def closeChat (st : ChatState) : ChatState :=
  { st with isOpen := false }

/-- `ChatbotManager.sendMessage`: ignore the send when the trimmed input is
empty or a reply is pending; otherwise append the user message, clear the
input, show the typing indicator and disable the send button, POST
`{session_id, message}` to `/chat/message`; on an ok response hide the
indicator, re-enable the button, append `data.message` and, when
`data.completed && data.preferences_collected`, the handoff
acknowledgement; on failure or non-ok status hide the indicator, re-enable
the button and append the apology. -/
def sendMessage (st : ChatState) (resp : FetchOutcome MessageData) :
    ChatState × List HttpRequest :=
  let message := jsTrim st.inputValue
  if message = "" ∨ st.isTyping then
    (st, [])
  else
    let st2 : ChatState :=
      { st with transcript := st.transcript ++ [(Role.user, message)],
                inputValue := "",
                isTyping := true, typingVisible := true, sendDisabled := true }
    let req : HttpRequest :=
      { url := apiBaseUrl ++ "/chat/message",
        body := messageBody st.sessionId message }
    match resp with
    | .ok d =>
        let st3 : ChatState :=
          { st2 with isTyping := false, typingVisible := false,
                     sendDisabled := false,
                     transcript := st2.transcript ++ [(Role.assistant, d.message)] }
        let st4 : ChatState :=
          if d.completed && d.preferences_collected then
            { st3 with
              transcript := st3.transcript ++ [(Role.assistant, handoffMessage)] }
          else st3
        (st4, [req])
    | _ =>
        ({ st2 with isTyping := false, typingVisible := false,
                    sendDisabled := false,
                    transcript := st2.transcript ++ [(Role.assistant, sendErrorMessage)] },
         [req])

/-- The user-visible events of the widget during one page load.  A `send`
carries the text standing in the input box and the outcome of the fetch. -/
inductive ChatEvent where
  | openEvt (resp : FetchOutcome StartData)
  | closeEvt
  | sendEvt (input : String) (resp : FetchOutcome MessageData)
deriving Repr, DecidableEq

/-- One step of the widget. -/
def chatStep (st : ChatState) (e : ChatEvent) : ChatState × List HttpRequest :=
  match e with
  | .openEvt resp => openChat st resp
  | .closeEvt => (closeChat st, [])
  | .sendEvt input resp => sendMessage { st with inputValue := input } resp

/-! ## Helper lemmas -/

lemma marketStep_properties (st : MarketState) (e : MarketEvent) :
    (marketStep st e).properties = st.properties := by
  cases e with
  | loadSaved parsed => cases h : st.storage <;> simp [marketStep, h]
  | setFilters f => rfl
  | save propertyId => rfl
  | setSortBy s => rfl
  | resetFilters => rfl

lemma marketRun_properties (evs : List MarketEvent) (st : MarketState) :
    (evs.foldl marketStep st).properties = st.properties := by
  induction evs generalizing st with
  | nil => rfl
  | cons e rest ih => rw [List.foldl_cons, ih, marketStep_properties]

lemma jsOrQ_some_zero (x : ℚ) : jsOrQ (some x) 0 = x := by
  by_cases h : x = 0 <;> simp [jsOrQ, h]

lemma jsOrQ_some_of_ne (x d : ℚ) (h : x ≠ 0) : jsOrQ (some x) d = x := by
  simp [jsOrQ, h]

lemma jsOrN_some_of_ne (x d : ℕ) (h : x ≠ 0) : jsOrN (some x) d = x := by
  simp [jsOrN, h]

lemma toggleSaved_of_mem (l : List String) (a : String) (h : a ∈ l) :
    toggleSaved l a = l.filter (fun i => i ≠ a) := by
  have hc : l.contains a = true := by simpa using h
  simp only [toggleSaved, hc, if_true]

lemma toggleSaved_of_not_mem (l : List String) (a : String) (h : a ∉ l) :
    toggleSaved l a = l ++ [a] := by
  have hc : l.contains a = false := by simpa using h
  simp only [toggleSaved, hc, Bool.false_eq_true, if_false]

lemma toggleSaved_twice_of_not_mem (l : List String) (a : String) (h : a ∉ l) :
    toggleSaved (toggleSaved l a) a = l := by
  rw [toggleSaved_of_not_mem l a h]
  have hc2 : a ∈ l ++ [a] := by simp
  rw [toggleSaved_of_mem _ a hc2, List.filter_append]
  have h1 : l.filter (fun i => decide (i ≠ a)) = l := by
    rw [List.filter_eq_self]
    intro b hb
    simp only [decide_eq_true_eq]
    intro hba
    subst hba
    exact h hb
  have h2 : [a].filter (fun i => decide (i ≠ a)) = [] := by simp
  rw [h1, h2, List.append_nil]

lemma toggleSaved_twice_perm (l : List String) (a : String) (h : l.count a ≤ 1) :
    (toggleSaved (toggleSaved l a) a).Perm l := by
  by_cases hm : a ∈ l
  · rw [toggleSaved_of_mem l a hm]
    have hnm : a ∉ l.filter (fun i => i ≠ a) := by simp
    rw [toggleSaved_of_not_mem _ a hnm]
    rw [List.perm_iff_count]
    intro b
    by_cases hb : b = a
    · subst hb
      rw [List.count_append, List.count_eq_zero.mpr hnm]
      have h1 : l.count b = 1 :=
        le_antisymm h (List.count_pos_iff.mpr hm)
      simp [h1]
    · rw [List.count_append, List.count_filter (by simp [hb])]
      simp [hb]
  · rw [toggleSaved_twice_of_not_mem l a hm]

/-! ## C4: the two vanilla `showPage` copies are the same function -/

/-- Claim C4: the parallel vanilla-JS copies reimplement the same routing.
The `pages` tables of `src/vanilla/script.js` and `src/frontend/script.js`
are equal, both `showPage` functions compute the same target page id
(including the home fallback for identifiers missing from the table) and
perform the same document update. -/
theorem claim_C4_duplicate_showPage :
    Vanilla.pages = Frontend.pages ∧
    (∀ pid, Vanilla.targetId pid = Frontend.targetId pid) ∧
    (∀ pid doc, Vanilla.showPage pid doc = Frontend.showPage pid doc) ∧
    (∀ pid, List.lookup pid Vanilla.pages = none →
       Vanilla.targetId pid = "home-page") := by
  refine ⟨rfl, fun _ => rfl, fun _ _ => rfl, ?_⟩
  intro pid h
  unfold Vanilla.targetId
  rw [h]
  rfl

/-- Claim C4, witness: the fallback hypothesis discharged at the unknown
identifier `"blog"`. -/
theorem claim_C4_duplicate_showPage_witness :
    List.lookup "blog" Vanilla.pages = none ∧ Vanilla.targetId "blog" = "home-page" :=
  ⟨rfl, claim_C4_duplicate_showPage.2.2.2 "blog" rfl⟩

/-! ## C5: the Marketplace renders only the static mock data -/

/-- Claim C5: the Marketplace `properties` state is initialized to the four
mock Texas properties and no operation of the page (loading saved ids,
changing filters or sort order, saving a property, resetting filters) ever
replaces or mutates that array, so after any event sequence the page still
holds exactly `mockProperties`. -/
theorem claim_C5_marketplace_static_mock_data :
    (∀ storage0 : Option String, (marketInit storage0).properties = mockProperties) ∧
    (∀ st e, (marketStep st e).properties = st.properties) ∧
    (∀ (storage0 : Option String) (evs : List MarketEvent),
      ((evs.foldl marketStep (marketInit storage0)).properties = mockProperties ∧
       (evs.foldl marketStep (marketInit storage0)).properties.length = 4)) := by
  refine ⟨fun _ => rfl, marketStep_properties, fun storage0 evs => ?_⟩
  rw [marketRun_properties]
  exact ⟨rfl, rfl⟩

/-! ## C6: the AgentConnect lead form submission is pure glue -/

/-- Claim C6: for every form state, submitting the AgentConnect lead form
prevents the default navigation and only raises the one
"Request submitted" toast; no HTTP request is issued and the form data is
left unchanged. -/
theorem claim_C6_lead_form_glue :
    ∀ fd : LeadFormData,
      (leadHandleSubmit fd).1 =
        [FormEffect.preventDefault,
         FormEffect.showToast "Request submitted"
           "We\x27ll connect you with a qualified agent within 24 hours."] ∧
      (∀ u b, FormEffect.httpRequest u b ∉ (leadHandleSubmit fd).1) ∧
      (leadHandleSubmit fd).2 = fd := by
  intro fd
  refine ⟨rfl, ?_, rfl⟩
  intro u b h
  simp [leadHandleSubmit] at h

/-- Claim C6, witness: the no-request clause instantiated at a concrete
form state and endpoint. -/
theorem claim_C6_lead_form_glue_witness :
    FormEffect.httpRequest "http://localhost:8001/leads" "x" ∉
      (leadHandleSubmit ⟨"Jo", "jo@x.com", "555", "Austin", "now"⟩).1 :=
  (claim_C6_lead_form_glue ⟨"Jo", "jo@x.com", "555", "Austin", "now"⟩).2.1
    "http://localhost:8001/leads" "x"

/-! ## C9: the save toggle is not an exact involution -/

/-- Claim C9, counterexample: with saved list `["a", "b"]`, toggling `"a"`
twice yields `["b", "a"]`, not the original list — `handleSaveProperty`
appends the re-added id at the end, so double application is not the
identity on the list. -/
theorem claim_C9_save_toggle_counterexample :
    ((handleSaveProperty (handleSaveProperty ⟨["a", "b"], none⟩ "a").1 "a").1).savedProperties
      ≠ ["a", "b"] := by
  decide

/-- Claim C9 as amended: `handleSaveProperty` removes the id when present
and appends it when absent, keeps the localStorage key `savedProperties`
equal to the JSON serialization of the updated list after every call, and —
for a saved list holding the id at most once — applying it twice with the
same id restores the original list up to permutation (the id moves to the
end), exactly restoring it when the id was absent. -/
theorem claim_C9_save_toggle_amended :
    ∀ (st : SavedState) (propertyId : String),
      (propertyId ∈ st.savedProperties →
        ((handleSaveProperty st propertyId).1).savedProperties
          = st.savedProperties.filter (fun i => i ≠ propertyId)) ∧
      (propertyId ∉ st.savedProperties →
        ((handleSaveProperty st propertyId).1).savedProperties
          = st.savedProperties ++ [propertyId]) ∧
      ((handleSaveProperty st propertyId).1).storage
        = some (jsonStringifyList ((handleSaveProperty st propertyId).1).savedProperties) ∧
      (st.savedProperties.count propertyId ≤ 1 →
        ((handleSaveProperty (handleSaveProperty st propertyId).1 propertyId).1).savedProperties.Perm
          st.savedProperties) ∧
      (propertyId ∉ st.savedProperties →
        ((handleSaveProperty (handleSaveProperty st propertyId).1 propertyId).1).savedProperties
          = st.savedProperties) := by
  intro st propertyId
  refine ⟨?_, ?_, rfl, ?_, ?_⟩
  · exact toggleSaved_of_mem st.savedProperties propertyId
  · exact toggleSaved_of_not_mem st.savedProperties propertyId
  · exact toggleSaved_twice_perm st.savedProperties propertyId
  · exact toggleSaved_twice_of_not_mem st.savedProperties propertyId

/-- Claim C9, witness: the amended double-application clause at the saved
list `["a", "b"]` and id `"a"`. -/
theorem claim_C9_save_toggle_amended_witness :
    (List.count "a" ["a", "b"] ≤ 1) ∧
    ((handleSaveProperty (handleSaveProperty ⟨["a", "b"], none⟩ "a").1 "a").1).savedProperties.Perm
      ["a", "b"] :=
  ⟨by decide,
   (claim_C9_save_toggle_amended ⟨["a", "b"], none⟩ "a").2.2.2.1 (by decide)⟩

/-! ## C1: no valuation engine in the executable sources

The deal metrics implemented in the executable TypeScript/JavaScript
sources are exhaustively: `calculateMargin` of the Marketplace page, the
DealAnalyzer summary metrics (`totalInvestment`, `grossProfit`,
`netProfit`, `marginPercent`), and `computeSavings` of the vanilla scripts
(every other function of the executable sources is page routing, DOM
decoration or HTTP glue and computes no valuation at all).  Each of them
factors through the scalar fields of the single subject property or
analysis record — none receives comparable-sales data or income data.  The
engine formulas of the planning documents, by contrast, vary nontrivially
with the comparable list and the NOI input, so no implemented function
computes a comp-adjusted, weight-reconciled or cap-rate-based valuation. -/

/-- Claim C1: every deal metric implemented in the executable sources is a
function of the single subject record's scalar fields alone (price, rehab
estimate, ARV; purchase price, closing costs, rehab total, ARV; list price,
estimated value), whereas the planned weighted-reconciliation and cap-rate
valuations depend on data (comparable sales, NOI) no implemented function
receives — the valuation engine of the planning documents exists nowhere in
the executable code. -/
theorem claim_C1_no_valuation_engine :
    (∀ p q : Property, p.price = q.price → p.rehabEstimate = q.rehabEstimate →
       p.arv = q.arv → calculateMargin p = calculateMargin q) ∧
    (∀ a b : DealAnalysis, a.purchasePrice = b.purchasePrice →
       a.closingCosts = b.closingCosts → a.totalRehab = b.totalRehab →
       a.arv = b.arv →
       totalInvestment a = totalInvestment b ∧ grossProfit a = grossProfit b ∧
         netProfit a = netProfit b ∧ marginPercent a = marginPercent b) ∧
    (∀ p q : ListingProperty, p.listPrice = q.listPrice →
       p.estValue = q.estValue → computeSavings p = computeSavings q) ∧
    (∃ c1 c2 : List ComparableSale, reconciledValue 1 c1 ≠ reconciledValue 1 c2) ∧
    (∃ n1 n2 c : ℚ, capRateValue n1 c ≠ capRateValue n2 c) := by
  refine ⟨?_, ?_, ?_, ?_, ?_⟩
  · intro p q h1 h2 h3
    simp only [calculateMargin, h1, h2, h3]
  · intro a b h1 h2 h3 h4
    simp only [totalInvestment, grossProfit, netProfit, marginPercent,
      h1, h2, h3, h4]
    simp
  · intro p q h1 h2
    simp only [computeSavings, h1, h2]
  · exact ⟨[⟨100, 0⟩], [⟨200, 0⟩], by norm_num [reconciledValue, compWeight]⟩
  · exact ⟨1, 2, 1, by norm_num [capRateValue]⟩

/-- Claim C1, witness: the margin of the first mock property is unchanged
by any change of the fields `calculateMargin` does not read. -/
theorem claim_C1_no_valuation_engine_witness :
    calculateMargin
      { id := "1", address := "123 Main St", city := "Austin", state := "TX",
        zip := "73301", beds := 3, baths := 2, sqft := 1850, price := 285000,
        arv := 365000, rehabEstimate := 45000, dom := 14, equityScore := 87,
        lat := 0, lng := 0, needsWork := true, propertyType := "single-family" } =
    calculateMargin
      { id := "99", address := "1 Other Rd", city := "Dallas", state := "TX",
        zip := "75201", beds := 5, baths := 4, sqft := 9999, price := 285000,
        arv := 365000, rehabEstimate := 45000, dom := 99, equityScore := 1,
        lat := 1, lng := 1, needsWork := false, propertyType := "condo" } :=
  claim_C1_no_valuation_engine.1 _ _ rfl rfl rfl

/-! ## C8: the Marketplace margin formula and filter semantics -/

/-- Claim C8: the Marketplace margin is
`round(100 * (arv - totalCost) / totalCost)` with
`totalCost = price + rehabEstimate + 0.08 * price`; and — for filters whose
numeric bounds are set (nonzero where the JS falsy default would kick in)
and whose property-type filter is not the empty string — a property appears
in `filteredProperties` exactly when its state matches, its price lies in
`[priceMin, priceMax]`, it meets the minimum-beds, property-type and
needs-work filters when those are set, its margin is at least `marginMin`,
and its days on market is at most `daysOnMarketMax`. -/
theorem claim_C8_margin_and_filter :
    (∀ p : Property,
       calculateMargin p =
         jsRound (100 * (p.arv - (p.price + p.rehabEstimate + (8/100) * p.price)) /
           (p.price + p.rehabEstimate + (8/100) * p.price))) ∧
    (∀ (props : List Property) (f : SearchFilters) (p : Property)
       (pmin pmax mmin : ℚ) (dmax : ℕ),
       f.priceMin = some pmin → f.priceMax = some pmax → pmax ≠ 0 →
       f.marginMin = some mmin → f.daysOnMarketMax = some dmax → dmax ≠ 0 →
       (∀ s, f.propertyType = some s → s ≠ "") →
       (p ∈ filteredProperties props f ↔
         p ∈ props ∧ p.state = f.state ∧ pmin ≤ p.price ∧ p.price ≤ pmax ∧
         (∀ b, f.beds = some b → b ≤ p.beds) ∧
         (∀ t, f.propertyType = some t → p.propertyType = t) ∧
         (∀ w, f.needsWork = some w → p.needsWork = w) ∧
         mmin ≤ (calculateMargin p : ℚ) ∧ p.dom ≤ dmax)) := by
  constructor
  · intro p
    simp only [calculateMargin]
    congr 1
    ring
  · intro props f p pmin pmax mmin dmax hmin hmax hmax0 hmm hdom hdom0 htype
    rw [filteredProperties, List.mem_filter]
    simp only [decide_eq_true_eq]
    have hpred : marketplaceFilterPred f p ↔
        (p.state = f.state ∧ pmin ≤ p.price ∧ p.price ≤ pmax ∧
         (∀ b, f.beds = some b → b ≤ p.beds) ∧
         (∀ t, f.propertyType = some t → p.propertyType = t) ∧
         (∀ w, f.needsWork = some w → p.needsWork = w) ∧
         mmin ≤ (calculateMargin p : ℚ) ∧ p.dom ≤ dmax) := by
      simp only [marketplaceFilterPred, hmin, hmax, hmm, hdom,
        jsOrQ_some_zero, jsOrQ_some_of_ne _ _ hmax0, jsOrN_some_of_ne _ _ hdom0]
      constructor
      · rintro ⟨hs, h1, h2, hb, ht, hw, hm, hd⟩
        refine ⟨hs, h1, h2, ?_, ?_, hw, hm, hd⟩
        · intro b hbe
          by_cases hb0 : b = 0
          · subst hb0
            exact Nat.zero_le _
          · exact hb b hbe hb0
        · intro t hte
          exact ht t hte (htype t hte)
      · rintro ⟨hs, h1, h2, hb, ht, hw, hm, hd⟩
        exact ⟨hs, h1, h2, fun b hbe _ => hb b hbe, fun t hte _ => ht t hte,
          hw, hm, hd⟩
    rw [hpred]

/-- The first mock property, for concrete instantiations. -/
def mockProperty1 : Property := mockProperties.get ⟨0, by decide⟩

/-- Claim C8, witness: the filter characterization instantiated at the
default Marketplace filters and the first mock property. -/
theorem claim_C8_margin_and_filter_witness :
    ((1000000 : ℚ) ≠ 0 ∧ (90 : ℕ) ≠ 0) ∧
    ((mockProperty1 ∈ filteredProperties mockProperties
        { state := "TX", priceMin := some 0, priceMax := some 1000000,
          marginMin := some 10, daysOnMarketMax := some 90 }) ↔
      (mockProperty1 ∈ mockProperties ∧
       mockProperty1.state = "TX" ∧
       (0 : ℚ) ≤ mockProperty1.price ∧
       mockProperty1.price ≤ 1000000 ∧
       (∀ b, (none : Option ℕ) = some b → b ≤ mockProperty1.beds) ∧
       (∀ t, (none : Option String) = some t →
          mockProperty1.propertyType = t) ∧
       (∀ w, (none : Option Bool) = some w →
          mockProperty1.needsWork = w) ∧
       (10 : ℚ) ≤ (calculateMargin mockProperty1 : ℚ) ∧
       mockProperty1.dom ≤ 90)) :=
  ⟨⟨by norm_num, by norm_num⟩,
   claim_C8_margin_and_filter.2 mockProperties
     { state := "TX", priceMin := some 0, priceMax := some 1000000,
       marginMin := some 10, daysOnMarketMax := some 90 }
     mockProperty1 0 1000000 10 90 rfl rfl (by norm_num) rfl rfl
     (by norm_num) (fun s h => by cases h)⟩

/-! ## C2: the chatbot widget calls only the local HTTP endpoints -/

/-- Claim C2: a non-empty (after trimming) message sent while no reply is
pending issues exactly one POST to `http://localhost:8001/chat/message`
with JSON body `{session_id, message}`, and on an ok response the
response's `message` field is appended to the transcript; opening the chat
with no session issues exactly one POST to
`http://localhost:8001/chat/start` and stores the returned `session_id`. -/
theorem claim_C2_chat_local_endpoint :
    (∀ (st : ChatState) (input : String) (resp : FetchOutcome MessageData),
       jsTrim input ≠ "" → st.isTyping = false →
       (sendMessage { st with inputValue := input } resp).2 =
         [{ url := "http://localhost:8001/chat/message",
            body := messageBody st.sessionId (jsTrim input) }] ∧
       (∀ d, resp = FetchOutcome.ok d →
          (sendMessage { st with inputValue := input } resp).1.transcript =
            st.transcript ++ [(Role.user, jsTrim input), (Role.assistant, d.message)] ++
              (if d.completed && d.preferences_collected
               then [(Role.assistant, handoffMessage)] else []))) ∧
    (∀ (st : ChatState) (resp : FetchOutcome StartData),
       st.sessionId = none →
       (openChat st resp).2 =
         [{ url := "http://localhost:8001/chat/start", body := "\x7b\x7d" }] ∧
       (∀ d, resp = FetchOutcome.ok d →
          (openChat st resp).1.sessionId = some d.session_id)) := by
  constructor
  · intro st input resp h1 h2
    constructor
    · cases resp <;>
        simp [sendMessage, h1, h2, apiBaseUrl]
    · intro d hd
      subst hd
      by_cases hc : d.completed && d.preferences_collected <;>
        simp [sendMessage, h1, h2, hc]
  · intro st resp hs
    cases resp <;>
      simp [openChat, startSession, startRequest, apiBaseUrl, jsFalsyStr, hs]

/-- Claim C2, witness: a concrete send and a concrete open. -/
theorem claim_C2_chat_local_endpoint_witness :
    (jsTrim " hello " ≠ "" ∧
     (sendMessage { ChatState.mk (some "s1") true false false false " hello " [] with
          inputValue := " hello " }
        (FetchOutcome.ok ⟨"hi!", false, false⟩)).2 =
       [{ url := "http://localhost:8001/chat/message",
          body := messageBody (some "s1") (jsTrim " hello ") }]) ∧
    ((openChat { sessionId := none } (FetchOutcome.ok ⟨"s2", "welcome"⟩)).1.sessionId
       = some "s2") :=
  ⟨⟨by decide,
    (claim_C2_chat_local_endpoint.1
      (ChatState.mk (some "s1") true false false false " hello " [])
      " hello " (FetchOutcome.ok ⟨"hi!", false, false⟩) (by decide) rfl).1⟩,
   (claim_C2_chat_local_endpoint.2 { sessionId := none }
      (FetchOutcome.ok ⟨"s2", "welcome"⟩) rfl).2 ⟨"s2", "welcome"⟩ rfl⟩

/-! ## C3: preferences are transmitted and the handoff is acknowledged -/

/-- Claim C3: every preference message the user enters (non-empty, not
while typing) is transmitted verbatim in the body of the POST to the
`chat/message` endpoint, and when the backend's response has
`completed = true` and `preferences_collected = true` the widget appends
the acknowledgement that the property finding team will now search for
matching investments. -/
theorem claim_C3_preferences_to_backend :
    ∀ (st : ChatState) (input : String) (d : MessageData),
      jsTrim input ≠ "" → st.isTyping = false →
      d.completed = true → d.preferences_collected = true →
      (sendMessage { st with inputValue := input } (FetchOutcome.ok d)).2 =
        [{ url := "http://localhost:8001/chat/message",
           body := messageBody st.sessionId (jsTrim input) }] ∧
      (sendMessage { st with inputValue := input } (FetchOutcome.ok d)).1.transcript =
        st.transcript ++ [(Role.user, jsTrim input), (Role.assistant, d.message),
                          (Role.assistant, handoffMessage)] := by
  intro st input d h1 h2 hc hp
  constructor
  · simp [sendMessage, h1, h2, apiBaseUrl]
  · simp [sendMessage, h1, h2, hc, hp]

/-- Claim C3, witness: a concrete completed conversation. -/
theorem claim_C3_preferences_to_backend_witness :
    (sendMessage { ChatState.mk (some "s1") true false false false "condo in Austin" [] with
         inputValue := "condo in Austin" }
       (FetchOutcome.ok ⟨"Great!", true, true⟩)).1.transcript =
      [(Role.user, "condo in Austin"), (Role.assistant, "Great!"),
       (Role.assistant, handoffMessage)] :=
  (claim_C3_preferences_to_backend
    (ChatState.mk (some "s1") true false false false "condo in Austin" [])
    "condo in Austin" ⟨"Great!", true, true⟩ (by decide) rfl rfl rfl).2

/-! ## C10: graceful degradation; at most one session up to the falsy guard

The `openChat` guard is `if (!this.sessionId)`, a JS truthiness test:
it fires both when no session was started and when the stored session id is
the empty string.  So "openChat invokes startSession only when sessionId is
null" fails on the code: after an ok `/chat/start` response whose
`session_id` is `""`, the next open issues a second `POST /chat/start`. -/

/-- Claim C10, counterexample: with the empty-string session id stored by
an ok `/chat/start` response, a new `openChat` is not a no-op — it issues
another `POST /chat/start` and establishes a second session — refuting
"openChat invokes startSession only when sessionId is null, so a session is
established at most once per page load" as stated. -/
theorem claim_C10_error_handling_counterexample :
    (openChat (ChatState.mk (some "") false false false false "" [])
        (FetchOutcome.ok ⟨"s2", "welcome back"⟩)).2 = [startRequest] ∧
    (openChat (ChatState.mk (some "") false false false false "" [])
        (FetchOutcome.ok ⟨"s2", "welcome back"⟩)).1.sessionId = some "s2" ∧
    ¬ (openChat (ChatState.mk (some "") false false false false "" [])
         (FetchOutcome.ok ⟨"s2", "welcome back"⟩) =
       ({ ChatState.mk (some "") false false false false "" [] with
            isOpen := true }, [])) := by
  refine ⟨rfl, rfl, ?_⟩
  decide

/-- Claim C10 as amended: when the start fetch fails or returns non-ok the
session id is unchanged (still null) and the apology is appended; when the
message fetch fails or returns non-ok the typing indicator is hidden, the
send button re-enabled, the apology appended and the session id unchanged;
`openChat` invokes `startSession` exactly when the stored session id is
falsy (null or the empty string, the JS `!this.sessionId` guard); and once
a non-empty session id is stored, no widget step ever requests
`/chat/start` or changes the session id — a session with a non-empty id is
established at most once per page load. -/
theorem claim_C10_error_handling :
    (∀ (st : ChatState) (resp : FetchOutcome StartData),
       (∀ d, resp ≠ FetchOutcome.ok d) →
       (startSession st resp).1.sessionId = st.sessionId ∧
       (startSession st resp).1.transcript =
         st.transcript ++ [(Role.assistant, startErrorMessage)]) ∧
    (∀ (st : ChatState) (input : String) (resp : FetchOutcome MessageData),
       jsTrim input ≠ "" → st.isTyping = false →
       (∀ d, resp ≠ FetchOutcome.ok d) →
       (sendMessage { st with inputValue := input } resp).1.typingVisible = false ∧
       (sendMessage { st with inputValue := input } resp).1.sendDisabled = false ∧
       (sendMessage { st with inputValue := input } resp).1.sessionId = st.sessionId ∧
       (sendMessage { st with inputValue := input } resp).1.transcript =
         st.transcript ++ [(Role.user, jsTrim input), (Role.assistant, sendErrorMessage)]) ∧
    (∀ (st : ChatState) (resp : FetchOutcome StartData),
       jsFalsyStr st.sessionId = true →
       (openChat st resp).2 = [startRequest]) ∧
    (∀ (st : ChatState) (resp : FetchOutcome StartData) (s : String),
       st.sessionId = some s → s ≠ "" →
       openChat st resp = ({ st with isOpen := true }, [])) ∧
    (∀ (st : ChatState) (e : ChatEvent) (s : String),
       st.sessionId = some s → s ≠ "" →
       (chatStep st e).1.sessionId = some s ∧
       ∀ r ∈ (chatStep st e).2, r.url ≠ "http://localhost:8001/chat/start") := by
  refine ⟨?_, ?_, ?_, ?_, ?_⟩
  · intro st resp hne
    cases resp with
    | failure => simp [startSession]
    | nonOk => simp [startSession]
    | ok d => exact absurd rfl (hne d)
  · intro st input resp h1 h2 hne
    cases resp with
    | failure => simp [sendMessage, h1, h2]
    | nonOk => simp [sendMessage, h1, h2]
    | ok d => exact absurd rfl (hne d)
  · intro st resp hf
    cases resp <;> simp [openChat, startSession, hf]
  · intro st resp s hs hne
    have hf : jsFalsyStr (some s) = false := by
      simp [jsFalsyStr, hne]
    simp [openChat, hs, hf]
  · intro st e s hs hne
    have hf : jsFalsyStr (some s) = false := by
      simp [jsFalsyStr, hne]
    cases e with
    | openEvt resp =>
        constructor
        · simp [chatStep, openChat, hf, hs]
        · intro r hr
          simp [chatStep, openChat, hs, hf] at hr
    | closeEvt =>
        constructor
        · simp [chatStep, closeChat, hs]
        · intro r hr
          simp [chatStep] at hr
    | sendEvt input resp =>
        constructor
        · by_cases hcond : jsTrim input = "" ∨ st.isTyping = true
          · simp [chatStep, sendMessage, hcond, hs]
          · cases resp <;> simp [chatStep, sendMessage, hcond, hs] <;>
              split <;> rfl
        · intro r hr
          by_cases hcond : jsTrim input = "" ∨ st.isTyping = true
          · simp [chatStep, sendMessage, hcond] at hr
          · cases resp <;>
              (simp [chatStep, sendMessage, hcond, apiBaseUrl] at hr;
               subst hr; simp)

/-- Claim C10, witness: a failed message fetch, and a second open with an
established non-empty session id. -/
theorem claim_C10_error_handling_witness :
    (jsTrim "hi" ≠ "" ∧
     (sendMessage { ChatState.mk none true false false false "hi" [] with
          inputValue := "hi" }
        (FetchOutcome.failure : FetchOutcome MessageData)).1.transcript =
       [(Role.user, "hi"), (Role.assistant, sendErrorMessage)]) ∧
    (("s1" : String) ≠ "" ∧
     openChat (ChatState.mk (some "s1") false false false false "" [])
        (FetchOutcome.failure : FetchOutcome StartData) =
      ({ ChatState.mk (some "s1") false false false false "" [] with
           isOpen := true }, [])) :=
  ⟨⟨by decide,
    (claim_C10_error_handling.2.1 (ChatState.mk none true false false false "hi" [])
      "hi" FetchOutcome.failure (by decide) rfl
      (fun d h => FetchOutcome.noConfusion h)).2.2.2⟩,
   ⟨by decide,
    claim_C10_error_handling.2.2.2.1
      (ChatState.mk (some "s1") false false false false "" [])
      FetchOutcome.failure "s1" rfl (by decide)⟩⟩


/-! ## DOM helper lemmas (for the routing claims) -/

lemma id_addClass (c : String) (e : Elem) : (addClass c e).id = e.id := by
  unfold addClass
  split <;> rfl

lemma id_removeClass (c : String) (e : Elem) : (removeClass c e).id = e.id := rfl

lemma hasClass_addClass_self (c : String) (e : Elem) :
    hasClass (addClass c e) c = true := by
  unfold addClass hasClass
  split <;> simp_all

lemma hasClass_removeClass_self (c : String) (e : Elem) :
    hasClass (removeClass c e) c = false := by
  simp [removeClass, hasClass]

lemma hasClass_addClass_ne (c c2 : String) (e : Elem) (h : c2 ≠ c) :
    hasClass (addClass c e) c2 = hasClass e c2 := by
  unfold addClass hasClass
  split
  · rfl
  · simp [h]

lemma hasClass_removeClass_ne (c c2 : String) (e : Elem) (h : c2 ≠ c) :
    hasClass (removeClass c e) c2 = hasClass e c2 := by
  apply Bool.coe_iff_coe.mp
  simp [hasClass, removeClass, h]

lemma forall2_imp_mem {α β : Type} {r s : α → β → Prop} {l1 : List α}
    {l2 : List β} (h : List.Forall₂ r l1 l2)
    (himp : ∀ a ∈ l1, ∀ b, r a b → s a b) : List.Forall₂ s l1 l2 := by
  induction h with
  | nil => exact List.Forall₂.nil
  | cons hr _ ih =>
      refine List.Forall₂.cons (himp _ (by simp) _ hr) (ih ?_)
      intro a ha b hab
      exact himp a (List.mem_cons_of_mem _ ha) b hab

lemma applyToFirstById_eq_map (tid : String) (f : Elem → Elem) :
    ∀ l : List Elem, (l.map Elem.id).Nodup →
      applyToFirstById tid f l =
        l.map (fun e => if e.id = tid then f e else e) := by
  intro l
  induction l with
  | nil => intro _; rfl
  | cons e rest ih =>
      intro hnd
      simp only [List.map_cons, List.nodup_cons] at hnd
      by_cases he : e.id = tid
      · simp only [applyToFirstById, he, if_true, List.map_cons]
        have hmap : rest.map (fun e2 => if e2.id = tid then f e2 else e2)
            = rest.map id := by
          apply List.map_congr_left
          intro e2 h2
          simp only [id]
          rw [if_neg]
          intro hid
          rw [he] at hnd
          exact hnd.1 (hid ▸ List.mem_map_of_mem Elem.id h2)
        rw [hmap, List.map_id]
      · simp only [applyToFirstById, he, if_false, List.map_cons, ih hnd.2]

lemma applyToFirstByDataPage_forall2 (v : String) (f : Elem → Elem) :
    ∀ l : List Elem,
      List.Forall₂ (fun e e2 => e2 = e ∨ e2 = f e) l
        (applyToFirstByDataPage v f l) := by
  intro l
  induction l with
  | nil => exact List.Forall₂.nil
  | cons e rest ih =>
      by_cases h : e.dataPage = some v
      · simp only [applyToFirstByDataPage, h, if_true]
        exact List.Forall₂.cons (Or.inr rfl)
          (List.forall₂_same.mpr (fun x _ => Or.inl rfl))
      · simp only [applyToFirstByDataPage, h, if_false]
        exact List.Forall₂.cons (Or.inl rfl) ih

/-- Exactness of `showPage` in `src/vanilla/script.js`: in a document with
unique ids whose page elements are not nav links, after `showPage` a page
element carries `active` exactly when its id is the targeted id. -/
lemma vanillaShowPage_exact :
    ∀ (doc : List Elem) (pid : String),
      (doc.map Elem.id).Nodup →
      (∀ e ∈ doc, hasClass e "page" = true → hasClass e "nav-link" = false) →
      List.Forall₂ (fun e e2 => e2.id = e.id ∧
        (hasClass e "page" = true →
          (hasClass e2 "active" = true ↔ e.id = Vanilla.targetId pid)))
        doc (Vanilla.showPage pid doc).1 := by
  intro doc pid hnd hdisj
  set tid := Vanilla.targetId pid with htid
  set g1 : Elem → Elem :=
    fun e => if hasClass e "page" then removeClass "active" e else e with hg1
  set g2 : Elem → Elem :=
    fun e => if e.id = tid then addClass "active" e else e with hg2
  set g3 : Elem → Elem :=
    fun e => if hasClass e "nav-link" then removeClass "active" e else e with hg3
  set f4 : Elem → Elem :=
    fun e => if hasClass e "nav-link" then addClass "active" e else e with hf4
  have hid_g1 : ∀ e, (g1 e).id = e.id := by
    intro e
    rw [hg1]
    dsimp only
    split <;> simp [id_removeClass]
  have hid_g2 : ∀ e, (g2 e).id = e.id := by
    intro e
    rw [hg2]
    dsimp only
    split <;> simp [id_addClass]
  have hid_g3 : ∀ e, (g3 e).id = e.id := by
    intro e
    rw [hg3]
    dsimp only
    split <;> simp [id_removeClass]
  have hid_f4 : ∀ e, (f4 e).id = e.id := by
    intro e
    rw [hf4]
    dsimp only
    split <;> simp [id_addClass]
  have hnd1 : ((doc.map g1).map Elem.id).Nodup := by
    rw [List.map_map]
    have : doc.map (Elem.id ∘ g1) = doc.map Elem.id :=
      List.map_congr_left (fun e _ => hid_g1 e)
    rw [this]
    exact hnd
  have hshow : (Vanilla.showPage pid doc).1 =
      applyToFirstByDataPage pid f4 (doc.map (fun e => g3 (g2 (g1 e)))) := by
    simp only [Vanilla.showPage]
    rw [applyToFirstById_eq_map tid (addClass "active") (doc.map g1) hnd1]
    rw [List.map_map, List.map_map]
    rfl
  rw [hshow]
  have hf2 := applyToFirstByDataPage_forall2 pid f4
    (doc.map (fun e => g3 (g2 (g1 e))))
  rw [List.forall₂_map_left_iff] at hf2
  apply forall2_imp_mem hf2
  intro e he e2 hcase
  by_cases hpage : hasClass e "page" = true
  · have hnav : hasClass e "nav-link" = false := hdisj e he hpage
    have hG1 : g1 e = removeClass "active" e := by
      rw [hg1]
      dsimp only
      rw [if_pos hpage]
    by_cases hid : e.id = tid
    · have hG2 : g2 (g1 e) = addClass "active" (removeClass "active" e) := by
        rw [hG1, hg2]
        dsimp only
        rw [if_pos (by rw [id_removeClass, hid])]
      have hnav2 : hasClass (addClass "active" (removeClass "active" e))
          "nav-link" = false := by
        rw [hasClass_addClass_ne _ _ _ (by decide),
            hasClass_removeClass_ne _ _ _ (by decide)]
        exact hnav
      have hG3 : g3 (g2 (g1 e)) = addClass "active" (removeClass "active" e) := by
        rw [hG2, hg3]
        dsimp only
        rw [hnav2]
        simp
      have hF4 : f4 (g3 (g2 (g1 e))) = g3 (g2 (g1 e)) := by
        rw [hG3, hf4]
        dsimp only
        rw [hnav2]
        simp
      have he2 : e2 = addClass "active" (removeClass "active" e) := by
        rcases hcase with h | h
        · rw [h, hG3]
        · rw [h, hF4, hG3]
      rw [he2]
      refine ⟨by rw [id_addClass, id_removeClass], fun _ => ?_⟩
      simp [hasClass_addClass_self, hid]
    · have hG2 : g2 (g1 e) = removeClass "active" e := by
        rw [hG1, hg2]
        dsimp only
        rw [if_neg (by rw [id_removeClass]; exact hid)]
      have hnav2 : hasClass (removeClass "active" e) "nav-link" = false := by
        rw [hasClass_removeClass_ne _ _ _ (by decide)]
        exact hnav
      have hG3 : g3 (g2 (g1 e)) = removeClass "active" e := by
        rw [hG2, hg3]
        dsimp only
        rw [hnav2]
        simp
      have hF4 : f4 (g3 (g2 (g1 e))) = g3 (g2 (g1 e)) := by
        rw [hG3, hf4]
        dsimp only
        rw [hnav2]
        simp
      have he2 : e2 = removeClass "active" e := by
        rcases hcase with h | h
        · rw [h, hG3]
        · rw [h, hF4, hG3]
      rw [he2]
      refine ⟨id_removeClass _ _, fun _ => ?_⟩
      simp [hasClass_removeClass_self, hid]
  · have hid2 : e2.id = e.id := by
      rcases hcase with h | h
      · rw [h, hid_g3, hid_g2, hid_g1]
      · rw [h, hid_f4, hid_g3, hid_g2, hid_g1]
    exact ⟨hid2, fun hp => absurd hp hpage⟩

/-- Exactness of `showPage` in `src/vanilla/script_new.js`: in a document
with unique ids containing the targeted page, after `showPage` the current
page becomes the requested identifier and a page element is displayed
exactly when its id is the targeted id. -/
lemma scriptNewShowPage_exact :
    ∀ (doc : List Elem) (pid cur : String),
      (doc.map Elem.id).Nodup →
      (∃ e ∈ doc, e.id = ScriptNew.targetId pid ∧ hasClass e "page" = true) →
      (ScriptNew.showPage pid doc cur).2 = pid ∧
      List.Forall₂ (fun e e2 => e2.id = e.id ∧
        (hasClass e "page" = true →
          (e2.displayed = true ↔ e.id = ScriptNew.targetId pid)))
        doc (ScriptNew.showPage pid doc cur).1 := by
  intro doc pid cur hnd hex
  set tid := ScriptNew.targetId pid with htid
  set h1 : Elem → Elem :=
    fun e => if hasClass e "page" then { e with displayed := false } else e
    with hh1
  have hid_h1 : ∀ e, (h1 e).id = e.id := by
    intro e
    rw [hh1]
    dsimp only
    split <;> rfl
  have hany : (doc.map h1).any (fun e => e.id = tid) = true := by
    obtain ⟨e, he, heid, _⟩ := hex
    apply List.any_eq_true.mpr
    refine ⟨h1 e, List.mem_map_of_mem h1 he, ?_⟩
    simp [hid_h1 e, heid]
  have hnd1 : ((doc.map h1).map Elem.id).Nodup := by
    rw [List.map_map]
    have : doc.map (Elem.id ∘ h1) = doc.map Elem.id :=
      List.map_congr_left (fun e _ => hid_h1 e)
    rw [this]
    exact hnd
  have hshow : ScriptNew.showPage pid doc cur =
      ((doc.map h1).map
        (fun e => if e.id = tid then { e with displayed := true } else e), pid) := by
    simp only [ScriptNew.showPage, hany, if_true]
    rw [applyToFirstById_eq_map tid _ (doc.map h1) hnd1]
  rw [hshow]
  refine ⟨rfl, ?_⟩
  dsimp only
  rw [List.map_map, List.forall₂_map_right_iff]
  apply List.forall₂_same.mpr
  intro e _
  constructor
  · show (if (h1 e).id = tid then { h1 e with displayed := true } else h1 e).id
      = e.id
    split
    · show (h1 e).id = e.id
      exact hid_h1 e
    · exact hid_h1 e
  · intro hpage
    have hh1e : h1 e = { e with displayed := false } := by
      rw [hh1]
      dsimp only
      rw [if_pos hpage]
    show ((if (h1 e).id = tid then { h1 e with displayed := true } else h1 e).displayed
        = true) ↔ e.id = tid
    by_cases hid : e.id = tid
    · rw [if_pos (by rw [hid_h1 e]; exact hid)]
      simp [hid]
    · rw [if_neg (by rw [hid_h1 e]; exact hid)]
      rw [hh1e]
      simp [hid]

/-! ## C7: page routing is a total lookup with home fallback -/

/-- Claim C7: clicking any element carrying a `data-page` attribute
prevents the default action and routes to that attribute's value;
`showPage` deactivates every page and activates exactly the page the
`pages` table maps the value to, falling back to the home page for every
value not present in the table — in `src/vanilla/script.js` (class-based
activation) and in `src/vanilla/script_new.js` (display-based activation),
each with its own table. -/
theorem claim_C7_routing_total_lookup :
    (∀ (doc : List Elem) (cur v : String),
       Vanilla.handleClick doc cur (some v) = (true, Vanilla.showPage v doc)) ∧
    (∀ (doc : List Elem) (cur : String),
       Vanilla.handleClick doc cur none = (false, doc, cur)) ∧
    (∀ pid, List.lookup pid Vanilla.pages = none →
       Vanilla.targetId pid = "home-page") ∧
    (∀ (doc : List Elem) (pid : String),
       (doc.map Elem.id).Nodup →
       (∀ e ∈ doc, hasClass e "page" = true → hasClass e "nav-link" = false) →
       List.Forall₂ (fun e e2 => e2.id = e.id ∧
         (hasClass e "page" = true →
           (hasClass e2 "active" = true ↔ e.id = Vanilla.targetId pid)))
         doc (Vanilla.showPage pid doc).1) ∧
    (∀ (doc : List Elem) (pid cur : String),
       (doc.map Elem.id).Nodup →
       (∃ e ∈ doc, e.id = ScriptNew.targetId pid ∧ hasClass e "page" = true) →
       (ScriptNew.showPage pid doc cur).2 = pid ∧
       List.Forall₂ (fun e e2 => e2.id = e.id ∧
         (hasClass e "page" = true →
           (e2.displayed = true ↔ e.id = ScriptNew.targetId pid)))
         doc (ScriptNew.showPage pid doc cur).1) ∧
    (∀ pid, List.lookup pid ScriptNew.pages = none →
       ScriptNew.targetId pid = "home-page") := by
  refine ⟨fun _ _ _ => rfl, fun _ _ => rfl, ?_, vanillaShowPage_exact,
    scriptNewShowPage_exact, ?_⟩
  · intro pid h
    unfold Vanilla.targetId
    rw [h]
    rfl
  · intro pid h
    unfold ScriptNew.targetId
    rw [h]
    rfl

/-- A small well-formed document, for concrete instantiations. -/
def demoDoc : List Elem :=
  [ { id := "home-page", classes := ["page", "active"] },
    { id := "marketplace-page", classes := ["page"] },
    { id := "nav-marketplace", classes := ["nav-link"],
      dataPage := some "marketplace" } ]

/-- Claim C7, witness: the routing characterizations instantiated on a
concrete three-element document and the `marketplace` page. -/
theorem claim_C7_routing_total_lookup_witness :
    ((demoDoc.map Elem.id).Nodup ∧
     (∀ e ∈ demoDoc, hasClass e "page" = true → hasClass e "nav-link" = false) ∧
     (∃ e ∈ demoDoc, e.id = ScriptNew.targetId "marketplace" ∧
        hasClass e "page" = true) ∧
     List.lookup "blog" ScriptNew.pages = none) ∧
    Vanilla.handleClick demoDoc "home" (some "marketplace")
      = (true, Vanilla.showPage "marketplace" demoDoc) ∧
    List.Forall₂ (fun e e2 => e2.id = e.id ∧
      (hasClass e "page" = true →
        (hasClass e2 "active" = true ↔ e.id = Vanilla.targetId "marketplace")))
      demoDoc (Vanilla.showPage "marketplace" demoDoc).1 ∧
    (ScriptNew.showPage "marketplace" demoDoc "home").2 = "marketplace" ∧
    ScriptNew.targetId "blog" = "home-page" :=
  ⟨⟨by decide, by decide, by decide, rfl⟩,
   claim_C7_routing_total_lookup.1 demoDoc "home" "marketplace",
   claim_C7_routing_total_lookup.2.2.2.1 demoDoc "marketplace"
     (by decide) (by decide),
   (claim_C7_routing_total_lookup.2.2.2.2.1 demoDoc "marketplace" "home"
     (by decide) (by decide)).1,
   claim_C7_routing_total_lookup.2.2.2.2.2 "blog" rfl⟩

end EquityAI
